import Mathlib

/-!
# Verification of `amp-story-embedded-component.js`

Shallow embedding of the embedded-component overlay of
`src/extensions/amp-story/1.0/amp-story-embedded-component.js`:
the overlay state machine (`onEmbeddedComponentUpdate_`, `setState_`,
`maybeCloseExpandedView_`, `onFocusedStateUpdate_`, `closeFocusedState_`,
`clearTooltip_`), the tooltip geometry (`verticalPositioning_`,
`horizontalPositioning_`), the expand-centering transform computed inside
`animateExpanded_`, and the href binding (`getElementHref_`,
`updateTooltipBehavior_`).

Rectangle coordinates and pixel sizes are embedded as rationals; DOM
mutations performed through the resources scheduler are embedded as direct
field updates on the component record plus an effect trace, since all of
them run synchronously with respect to the state machine here modelled.
`devAssert` is embedded with its production semantics (pass-through).
-/

/-- `MIN_VERTICAL_SPACE` : minimum vertical space needed to position tooltip. -/
def MIN_VERTICAL_SPACE : ℚ := 56

/-- `EDGE_PADDING` : padding between tooltip and edges of screen. -/
def EDGE_PADDING : ℚ := 8

/-- A `ClientRect` as consumed by the positioning code: result of
`getBoundingClientRect()`, with `top`, `left`, `width`, `height` fields. -/
structure Rect where
  top : ℚ
  left : ℚ
  width : ℚ
  height : ℚ
deriving DecidableEq

/-- `ClientRect.bottom`, derived as `top + height`. -/
def Rect.bottom (r : Rect) : ℚ := r.top + r.height

/-- `verticalPositioning_(targetRect, pageRect, state)` : decides
`state.tooltipTop` and `state.arrowOnTop` (`state.arrowOnTop` is initialized
to `false` by `positionTooltip_` and only the second branch sets it). -/
def verticalPositioning_ (targetRect pageRect : Rect) : ℚ × Bool :=
  let targetTopOffset := targetRect.top - pageRect.top
  let targetBottomOffset := targetRect.bottom - pageRect.top
  if targetTopOffset > MIN_VERTICAL_SPACE then
    (targetRect.top - MIN_VERTICAL_SPACE, false)
  else if pageRect.height - targetBottomOffset > MIN_VERTICAL_SPACE then
    (targetRect.bottom + EDGE_PADDING * 2, true)
  else
    (pageRect.height / 2, false)

/-- `horizontalPositioning_(targetRect, pageRect, state)` : computes the final
`state.tooltipLeft` (after the `+= pageRect.left` translation) and
`state.arrowLeftOffset`. `tooltipWidth` is `this.tooltip_.offsetWidth` and
`arrowWidth` is `this.tooltipArrow_.offsetWidth`, both measured widths. -/
def horizontalPositioning_ (targetRect pageRect : Rect)
    (tooltipWidth arrowWidth : ℚ) : ℚ × ℚ :=
  let targetLeftOffset := targetRect.left - pageRect.left
  let elCenterLeft := targetRect.width / 2 + targetLeftOffset
  let tooltipLeft0 := elCenterLeft - tooltipWidth / 2
  let maxHorizontalLeft := pageRect.width - tooltipWidth - EDGE_PADDING
  let tooltipLeft1 := min tooltipLeft0 maxHorizontalLeft
  let tooltipLeft2 := max EDGE_PADDING tooltipLeft1
  let arrowLeftOffset0 := |elCenterLeft - tooltipLeft2 - arrowWidth / 2|
  let arrowLeftOffset1 := min arrowLeftOffset0 (tooltipWidth - EDGE_PADDING * 3)
  (tooltipLeft2 + pageRect.left, arrowLeftOffset1)

/-- The measure phase of `animateExpanded_(target)` : computes
`(state.translateX, state.translateY)` from the target and active-page
rectangles. -/
def animateExpandedTranslate (targetRect pageRect : Rect) : ℚ × ℚ :=
  let centeredTop := pageRect.height / 2 - targetRect.height / 2
  let centeredLeft := pageRect.width / 2 - targetRect.width / 2
  let leftOffset := targetRect.left - pageRect.left
  let topOffset := targetRect.top - pageRect.top
  (leftOffset - centeredLeft, centeredTop - topOffset)

example :
    verticalPositioning_ ⟨300, 180, 40, 40⟩ ⟨0, 0, 400, 600⟩ = (244, false) := by
  norm_num [verticalPositioning_, Rect.bottom, MIN_VERTICAL_SPACE, EDGE_PADDING]

example :
    verticalPositioning_ ⟨10, 180, 40, 40⟩ ⟨0, 0, 400, 600⟩ = (66, true) := by
  norm_num [verticalPositioning_, Rect.bottom, MIN_VERTICAL_SPACE, EDGE_PADDING]

example :
    animateExpandedTranslate ⟨100, 50, 100, 100⟩ ⟨0, 0, 400, 400⟩ = (-100, 50) := by
  norm_num [animateExpandedTranslate]

/-- `ComponentState.HIDDEN` (numeric enum value `0`). -/
def ComponentState.HIDDEN : Nat := 0

/-- `ComponentState.FOCUSED` (numeric enum value `1`). -/
def ComponentState.FOCUSED : Nat := 1

/-- `ComponentState.EXPANDED` (numeric enum value `2`). -/
def ComponentState.EXPANDED : Nat := 2

/-- Modelled from the spec: URL schemes distinguished by the protocol
validation of `isProtocolValid` (`src/url.js`, not under `src/` here). The
spec keeps http(s)/mailto-class schemes and rejects schemes such as
`javascript:`; `relative` stands for a URL with no scheme. -/
inductive UrlScheme where
  | http
  | https
  | mailto
  | relative
  | javascript
  | other
deriving DecidableEq

/-- Modelled from the spec: a URL value as read from an attribute, reduced to
its scheme plus an opaque remainder distinguishing different URLs. -/
structure Url where
  scheme : UrlScheme
  body : Nat
deriving DecidableEq

/-- Modelled from the spec: `isProtocolValid` (`src/url.js`, not under
`src/`): accepts an absent URL and http(s)/mailto-class schemes, rejects
non-http(s)/mailto-class schemes such as `javascript:`. -/
def isProtocolValid : Option Url → Bool
  | none => true
  | some u =>
    match u.scheme with
    | UrlScheme.http => true
    | UrlScheme.https => true
    | UrlScheme.mailto => true
    | UrlScheme.relative => true
    | UrlScheme.javascript => false
    | UrlScheme.other => false

/-- Modelled from the spec: `parseUrlDeprecated(url).href` (`src/url.js`, not
under `src/`) — URL normalization, which preserves the scheme and identity of
the URL; embedded as the identity on the abstract `Url` value. -/
def parseUrlDeprecatedHref (u : Url) : Url := u

/-- A DOM element that can become the embedded-component target, reduced to
what the module reads from it: an identity (reference equality on elements is
embedded as equality of descriptors with distinct `id`s), whether it matches
the `LINK` selector `a[href]`, whether its tag is in `EXPANDABLE_COMPONENTS`,
whether it matches `.i-amphtml-expanded-view-close-button`, and its `href`
attribute. -/
structure Target where
  id : Nat
  isLink : Bool
  isExpandable : Bool
  isCloseButton : Bool
  href : Option Url
deriving DecidableEq

/-- Observable side effects of the state machine: `dev().warn` (non-fatal
log carrying the interpolated `this.state_` value), `user().error` for the
invalid tooltip url, store dispatches, the content-update path
`updateTooltipEl_` (text, icon, position), the expand animation, and the
transform reset on the previous target when collapsing. -/
inductive Effect where
  | devWarn (stateVal : Nat)
  | userErrorTooltipUrlInvalid
  | dispatchToggleEmbedded (target : Option Target)
  | dispatchToggleExpanded (target : Option Target)
  | updateTooltipEl (target : Target)
  | animateExpanded
  | resetPreviousTargetTransform
deriving DecidableEq

/-- The mutable fields of `AmpStoryEmbeddedComponent` the claims are about:
`state_`, `previousTarget_`, whether the focused-state overlay has been built
and whether it carries the `i-amphtml-hidden` class, the tooltip element's
`href` attribute, whether the expand-click listener is attached to the
tooltip, and the expanded-view overlay (built / shown). -/
structure Component where
  state_ : Nat
  previousTarget_ : Option Target
  overlayBuilt : Bool
  overlayHidden : Bool
  tooltipHref : Option Url
  tooltipHasExpandListener : Bool
  expandedViewOverlayBuilt : Bool
  expandedViewOpen : Bool
deriving DecidableEq

/-- `getElementHref_(target)` : reads the `href` attribute; on invalid
protocol reports a user-facing error and returns `undefined`, otherwise
returns the normalized href. -/
def getElementHref_ (target : Target) : Option Url × List Effect :=
  if isProtocolValid target.href then
    (target.href.map parseUrlDeprecatedHref, [])
  else
    (none, [Effect.userErrorTooltipUrlInvalid])

/-- Modelled from the spec: `addAttributesToElement` (`src/dom.js`, not under
`src/`) applied to `dict({'href': value})` on the tooltip — per the spec an
invalid (absent) href value leaves the link attribute omitted, a present
value sets it. -/
def addTooltipHrefAttribute (c : Component) : Option Url → Component
  | none => c
  | some u => { c with tooltipHref := some u }

/-- `updateTooltipBehavior_(target)` : for `LINK` targets binds the href
attribute from `getElementHref_`; for expandable components attaches the
expand-click listener; otherwise does nothing. -/
def updateTooltipBehavior_ (c : Component) (target : Target) :
    Component × List Effect :=
  if target.isLink then
    let r := getElementHref_ target
    (addTooltipHrefAttribute c r.1, r.2)
  else if target.isExpandable then
    ({ c with tooltipHasExpandListener := true }, [])
  else
    (c, [])

/-- `onFocusedStateUpdate_(target)` : with a null target dispatches
`TOGGLE_EMBEDDED_COMPONENT null` and adds the `i-amphtml-hidden` class to the
overlay; with a target, builds the overlay if needed, updates tooltip
behavior, runs the content-update path `updateTooltipEl_` only when the
target differs from `previousTarget_`, records the target as
`previousTarget_` and removes the hidden class. -/
def onFocusedStateUpdate_ (c : Component) : Option Target → Component × List Effect
  | none =>
    ({ c with overlayHidden := true }, [Effect.dispatchToggleEmbedded none])
  | some target =>
    let c0 := { c with overlayBuilt := true }
    let r1 := updateTooltipBehavior_ c0 target
    let e2 := if r1.1.previousTarget_ = some target then []
              else [Effect.updateTooltipEl target]
    ({ r1.1 with previousTarget_ := some target, overlayHidden := false },
     r1.2 ++ e2)

/-- `toggleExpandedView_(targetToExpand)` : with a null target collapses the
expanded view when its overlay exists (resetting the transform on
`previousTarget_`); with a target runs the expand animation, builds the
overlay if needed and shows it. -/
def toggleExpandedView_ (c : Component) : Option Target → Component × List Effect
  | none =>
    if c.expandedViewOverlayBuilt then
      ({ c with expandedViewOpen := false }, [Effect.resetPreviousTargetTransform])
    else
      (c, [])
  | some _target =>
    ({ c with expandedViewOverlayBuilt := true, expandedViewOpen := true },
     [Effect.animateExpanded])

/-- `setState_(state, target)` : switches on the requested state; for
`FOCUSED`/`HIDDEN` stores it and runs `onFocusedStateUpdate_(target)`; for
`EXPANDED` stores it, hides the focused overlay and toggles the expanded
view; any other value only logs a `dev().warn` naming `this.state_`. -/
def setState_ (c : Component) (state : Nat) (target : Option Target) :
    Component × List Effect :=
  if state = ComponentState.FOCUSED ∨ state = ComponentState.HIDDEN then
    onFocusedStateUpdate_ { c with state_ := state } target
  else if state = ComponentState.EXPANDED then
    let c1 := { c with state_ := state }
    let r2 := onFocusedStateUpdate_ c1 none
    let r3 := toggleExpandedView_ r2.1 target
    (r3.1, r2.2 ++ r3.2)
  else
    (c, [Effect.devWarn c.state_])

/-- `maybeCloseExpandedView_(target)` : while expanded, only a target
matching `.i-amphtml-expanded-view-close-button` closes: set state `HIDDEN`,
collapse the expanded view, detach the expand-click listener and dispatch
`TOGGLE_EXPANDED_COMPONENT null`; otherwise nothing happens. -/
def maybeCloseExpandedView_ (c : Component) : Option Target → Component × List Effect
  | some target =>
    if target.isCloseButton then
      let r1 := setState_ c ComponentState.HIDDEN none
      let r2 := toggleExpandedView_ r1.1 none
      ({ r2.1 with tooltipHasExpandListener := false },
       r1.2 ++ r2.2 ++ [Effect.dispatchToggleExpanded none])
    else
      (c, [])
  | none => (c, [])

/-- `onEmbeddedComponentUpdate_(target)` : the store-driven entry point;
switches on the current state (`FOCUSED`/`HIDDEN` fall through together,
`EXPANDED` delegates to `maybeCloseExpandedView_`, anything else only logs a
`dev().warn`). -/
def onEmbeddedComponentUpdate_ (c : Component) (target : Option Target) :
    Component × List Effect :=
  if c.state_ = ComponentState.FOCUSED ∨ c.state_ = ComponentState.HIDDEN then
    match target with
    | some _ => setState_ c ComponentState.FOCUSED target
    | none => setState_ c ComponentState.HIDDEN none
  else if c.state_ = ComponentState.EXPANDED then
    maybeCloseExpandedView_ c target
  else
    (c, [Effect.devWarn c.state_])

/-- `clearTooltip_()` : detaches the expand-click listener and removes the
`href` attribute from the tooltip. -/
def clearTooltip_ (c : Component) : Component :=
  { c with tooltipHasExpandListener := false, tooltipHref := none }

/-- `closeFocusedState_()` : clears the tooltip, then sets state `HIDDEN`. -/
def closeFocusedState_ (c : Component) : Component × List Effect :=
  setState_ (clearTooltip_ c) ComponentState.HIDDEN none

/-- `onOutsideTooltipClick_(event)` : when the click is not inside the
tooltip element, stops propagation and closes the focused state. -/
def onOutsideTooltipClick_ (c : Component) (clickInsideTooltip : Bool) :
    Component × List Effect :=
  if clickInsideTooltip then (c, []) else closeFocusedState_ c

/-- Counts invocations of the content-update path `updateTooltipEl_`
(tooltip text, icon and position) in an effect trace. -/
def countContentRebinds (effects : List Effect) : Nat :=
  effects.countP (fun e =>
    match e with
    | Effect.updateTooltipEl _ => true
    | _ => false)

/-- A freshly constructed component: state `HIDDEN`, no previous target, no
overlay, clear tooltip. -/
def hiddenComponent : Component where
  state_ := ComponentState.HIDDEN
  previousTarget_ := none
  overlayBuilt := false
  overlayHidden := false
  tooltipHref := none
  tooltipHasExpandListener := false
  expandedViewOverlayBuilt := false
  expandedViewOpen := false

/-- An `amp-twitter` element: expandable, not a link, not the close button. -/
def twitterTarget : Target where
  id := 1
  isLink := false
  isExpandable := true
  isCloseButton := false
  href := none

/-- The `.i-amphtml-expanded-view-close-button` element. -/
def closeButtonTarget : Target where
  id := 2
  isLink := false
  isExpandable := false
  isCloseButton := true
  href := none

/-- An `a[href]` element whose href is `javascript:alert(1)` (scheme
`javascript`, disallowed by protocol validation). -/
def badLinkTarget : Target where
  id := 3
  isLink := true
  isExpandable := false
  isCloseButton := false
  href := some ⟨UrlScheme.javascript, 0⟩

/-- A component in `EXPANDED` state showing `twitterTarget`. -/
def expandedComponent : Component :=
  { hiddenComponent with
    state_ := ComponentState.EXPANDED
    previousTarget_ := some twitterTarget
    overlayBuilt := true
    overlayHidden := true
    tooltipHasExpandListener := true
    expandedViewOverlayBuilt := true
    expandedViewOpen := true }

/-- A component whose `state_` field holds the out-of-contract value `3`. -/
def badStateComponent : Component :=
  { hiddenComponent with state_ := 3 }

/-- A component in `FOCUSED` state with a bound link tooltip. -/
def focusedLinkComponent : Component :=
  { hiddenComponent with
    state_ := ComponentState.FOCUSED
    previousTarget_ := some twitterTarget
    overlayBuilt := true
    tooltipHref := some ⟨UrlScheme.https, 7⟩
    tooltipHasExpandListener := true }

/-- Container rectangle `{top: 0, left: 0, width: 400, height: 600}` used by
the spec examples. -/
def pageForVertical : Rect := ⟨0, 0, 400, 600⟩

/-- Target rectangle whose space above the container top is exactly
`MIN_VERTICAL_SPACE`. -/
def boundaryTarget : Rect := ⟨56, 0, 40, 40⟩

/-- Target rectangle from the spec example `{top: 10, left: 180, width: 40,
height: 40}`. -/
def exampleTarget : Rect := ⟨10, 180, 40, 40⟩

/-- Target rectangle `{top: 300, left: 180, width: 40, height: 40}` with
ample space above. -/
def aboveTarget : Rect := ⟨300, 180, 40, 40⟩

/-- Target rectangle with exactly `MIN_VERTICAL_SPACE` of space below the
target inside `pageForVertical` (bottom `544`, space below `56`). -/
def tallTarget : Rect := ⟨10, 0, 40, 534⟩

/-- Target rectangle leaving less than `MIN_VERTICAL_SPACE` both above and
below inside `pageForVertical`. -/
def fullTarget : Rect := ⟨10, 0, 40, 580⟩

/-- C1: from `HIDDEN` or `FOCUSED`, `onEmbeddedComponentUpdate_` with a null
target yields state `HIDDEN`; from `EXPANDED`, any update whose target is not
the expanded-view close-button sentinel (null or non-null) returns the
component unchanged with no side effect, and an update matching the close
sentinel transitions to `HIDDEN`. -/
theorem c1_state_machine_transitions (c : Component) :
    ((c.state_ = ComponentState.HIDDEN ∨ c.state_ = ComponentState.FOCUSED) →
      (onEmbeddedComponentUpdate_ c none).1.state_ = ComponentState.HIDDEN)
    ∧ (c.state_ = ComponentState.EXPANDED →
        (∀ target : Option Target,
            (∀ t : Target, target = some t → t.isCloseButton = false) →
            onEmbeddedComponentUpdate_ c target = (c, []))
        ∧ ∀ t : Target, t.isCloseButton = true →
            (onEmbeddedComponentUpdate_ c (some t)).1.state_ =
              ComponentState.HIDDEN) := by
  constructor
  · intro h
    rcases h with h | h <;>
      simp [onEmbeddedComponentUpdate_, setState_, onFocusedStateUpdate_,
        ComponentState.HIDDEN, ComponentState.FOCUSED, ComponentState.EXPANDED, h]
  · intro h
    constructor
    · intro target ht
      cases target with
      | none =>
          simp [onEmbeddedComponentUpdate_, maybeCloseExpandedView_,
            ComponentState.HIDDEN, ComponentState.FOCUSED,
            ComponentState.EXPANDED, h]
      | some t =>
          have hbtn := ht t rfl
          simp [onEmbeddedComponentUpdate_, maybeCloseExpandedView_,
            ComponentState.HIDDEN, ComponentState.FOCUSED,
            ComponentState.EXPANDED, h, hbtn]
    · intro t ht
      simp only [onEmbeddedComponentUpdate_, maybeCloseExpandedView_,
        setState_, toggleExpandedView_, onFocusedStateUpdate_,
        ComponentState.HIDDEN, ComponentState.FOCUSED, ComponentState.EXPANDED,
        h, ht]
      norm_num
      split <;> rfl

/-- C1 witness: concrete instances of the three transitions. -/
theorem c1_state_machine_transitions_witness :
    (onEmbeddedComponentUpdate_ hiddenComponent none).1.state_ =
      ComponentState.HIDDEN
  ∧ onEmbeddedComponentUpdate_ expandedComponent none = (expandedComponent, [])
  ∧ (onEmbeddedComponentUpdate_ expandedComponent (some closeButtonTarget)).1.state_ =
      ComponentState.HIDDEN :=
  ⟨(c1_state_machine_transitions hiddenComponent).1 (Or.inl rfl),
   ((c1_state_machine_transitions expandedComponent).2 rfl).1 none
     (fun _ h => nomatch h),
   ((c1_state_machine_transitions expandedComponent).2 rfl).2
     closeButtonTarget rfl⟩

/-- C2 counterexample: with the target's top exactly `MIN_VERTICAL_SPACE`
below the container's top, the first vertical rule is NOT selected: the code
compares with strict `>`, so the result is not
`(targetTop - MIN_VERTICAL_SPACE, false)`. -/
theorem c2_counterexample_boundary_not_above :
    boundaryTarget.top - pageForVertical.top = MIN_VERTICAL_SPACE
  ∧ verticalPositioning_ boundaryTarget pageForVertical ≠
      (boundaryTarget.top - MIN_VERTICAL_SPACE, false) := by
  constructor
  · norm_num [boundaryTarget, pageForVertical, MIN_VERTICAL_SPACE]
  · norm_num [verticalPositioning_, Rect.bottom, boundaryTarget,
      pageForVertical, MIN_VERTICAL_SPACE, EDGE_PADDING]

/-- C2 (amended): the comparison in the first vertical rule is strict (`>`),
so with space above exactly equal to `MIN_VERTICAL_SPACE` the first rule is
not selected and the remaining rules decide the placement (below placement if
space below is strictly greater than `MIN_VERTICAL_SPACE`, otherwise vertical
centering). -/
theorem c2_amended_boundary_strict (t p : Rect)
    (h : t.top - p.top = MIN_VERTICAL_SPACE) :
    verticalPositioning_ t p =
      if p.height - (t.bottom - p.top) > MIN_VERTICAL_SPACE then
        (t.bottom + EDGE_PADDING * 2, true)
      else
        (p.height / 2, false) := by
  simp [verticalPositioning_, h]

/-- C2 (amended) witness: the boundary example resolves to the
below-placement rule. -/
theorem c2_amended_boundary_strict_witness :
    boundaryTarget.top - pageForVertical.top = MIN_VERTICAL_SPACE
  ∧ verticalPositioning_ boundaryTarget pageForVertical =
      if pageForVertical.height - (boundaryTarget.bottom - pageForVertical.top) >
          MIN_VERTICAL_SPACE then
        (boundaryTarget.bottom + EDGE_PADDING * 2, true)
      else
        (pageForVertical.height / 2, false) :=
  ⟨by norm_num [boundaryTarget, pageForVertical, MIN_VERTICAL_SPACE],
   c2_amended_boundary_strict boundaryTarget pageForVertical
     (by norm_num [boundaryTarget, pageForVertical, MIN_VERTICAL_SPACE])⟩

/-- C3 counterexample: with space above below the minimum and space below the
target exactly `MIN_VERTICAL_SPACE` (so "at least `MIN_VERTICAL_SPACE`"
holds), the second rule is NOT selected: the code compares with strict `>`
and centers vertically instead. -/
theorem c3_counterexample_below_boundary :
    ¬ (tallTarget.top - pageForVertical.top ≥ MIN_VERTICAL_SPACE)
  ∧ pageForVertical.height - (tallTarget.bottom - pageForVertical.top) ≥
      MIN_VERTICAL_SPACE
  ∧ verticalPositioning_ tallTarget pageForVertical ≠
      (tallTarget.bottom + 2 * EDGE_PADDING, true) := by
  refine ⟨?_, ?_, ?_⟩
  · norm_num [tallTarget, pageForVertical, MIN_VERTICAL_SPACE]
  · norm_num [tallTarget, pageForVertical, Rect.bottom, MIN_VERTICAL_SPACE]
  · norm_num [verticalPositioning_, Rect.bottom, tallTarget, pageForVertical,
      MIN_VERTICAL_SPACE, EDGE_PADDING]

/-- C3 (amended): the vertical rules are evaluated in order with first match
winning and with strict comparisons: if space above is strictly greater than
`MIN_VERTICAL_SPACE` then `tooltipTop = targetTop - 56` with
`arrowOnTop = false`; else if space below is strictly greater than
`MIN_VERTICAL_SPACE` then `tooltipTop = targetBottom + 2*EDGE_PADDING` with
`arrowOnTop = true`; else `tooltipTop = containerHeight/2`. The spec's
concrete example (container `{0,0,400,600}`, target `{10,180,40,40}`) yields
`tooltipTop = 66` and `arrowOnTop = true`. -/
theorem c3_amended_ordered_rules (t p : Rect) :
    ((t.top - p.top > MIN_VERTICAL_SPACE →
        verticalPositioning_ t p = (t.top - MIN_VERTICAL_SPACE, false))
     ∧ (¬ (t.top - p.top > MIN_VERTICAL_SPACE) →
        p.height - (t.bottom - p.top) > MIN_VERTICAL_SPACE →
        verticalPositioning_ t p = (t.bottom + 2 * EDGE_PADDING, true))
     ∧ (¬ (t.top - p.top > MIN_VERTICAL_SPACE) →
        ¬ (p.height - (t.bottom - p.top) > MIN_VERTICAL_SPACE) →
        (verticalPositioning_ t p).1 = p.height / 2))
  ∧ verticalPositioning_ exampleTarget pageForVertical = (66, true) := by
  refine ⟨⟨?_, ?_, ?_⟩, ?_⟩
  · intro h1
    simp [verticalPositioning_, h1]
  · intro h1 h2
    simp [verticalPositioning_, h1, h2, mul_comm]
  · intro h1 h2
    simp [verticalPositioning_, h1, h2]
  · norm_num [verticalPositioning_, Rect.bottom, exampleTarget,
      pageForVertical, MIN_VERTICAL_SPACE, EDGE_PADDING]

/-- C3 (amended) witness: one concrete instance per rule, plus the spec
example. -/
theorem c3_amended_ordered_rules_witness :
    verticalPositioning_ aboveTarget pageForVertical =
      (aboveTarget.top - MIN_VERTICAL_SPACE, false)
  ∧ verticalPositioning_ exampleTarget pageForVertical =
      (exampleTarget.bottom + 2 * EDGE_PADDING, true)
  ∧ (verticalPositioning_ fullTarget pageForVertical).1 =
      pageForVertical.height / 2
  ∧ verticalPositioning_ exampleTarget pageForVertical = (66, true) :=
  ⟨(c3_amended_ordered_rules aboveTarget pageForVertical).1.1
     (by norm_num [aboveTarget, pageForVertical, MIN_VERTICAL_SPACE]),
   (c3_amended_ordered_rules exampleTarget pageForVertical).1.2.1
     (by norm_num [exampleTarget, pageForVertical, MIN_VERTICAL_SPACE])
     (by norm_num [exampleTarget, pageForVertical, Rect.bottom,
       MIN_VERTICAL_SPACE]),
   (c3_amended_ordered_rules fullTarget pageForVertical).1.2.2
     (by norm_num [fullTarget, pageForVertical, MIN_VERTICAL_SPACE])
     (by norm_num [fullTarget, pageForVertical, Rect.bottom,
       MIN_VERTICAL_SPACE]),
   (c3_amended_ordered_rules exampleTarget pageForVertical).2⟩

/-- A container wider than the tooltip, with a nonzero left offset:
`{top: 0, left: 10, width: 400, height: 600}`. -/
def offsetPage : Rect := ⟨0, 10, 400, 600⟩

/-- A target hugging the right edge of `offsetPage`. -/
def rightEdgeTarget : Rect := ⟨100, 390, 20, 20⟩

/-- A target hugging the left edge of `offsetPage`. -/
def leftEdgeTarget : Rect := ⟨100, 10, 20, 20⟩

/-- A target centered in `offsetPage`. -/
def centerTarget : Rect := ⟨100, 200, 20, 20⟩

/-- A degenerate container narrower than the tooltip:
`{top: 0, left: 0, width: 20, height: 600}`. -/
def narrowPage : Rect := ⟨0, 0, 20, 600⟩

/-- A target at the left edge of its container. -/
def narrowTarget : Rect := ⟨100, 0, 20, 20⟩

/-- C4 counterexample: with a tooltip wider than the container (tooltip width
`100`, container width `20`), the computed tooltip left (`-40`) exceeds the
upper bound `containerWidth - tooltipWidth - EDGE_PADDING = -88`, yet the
result is `EDGE_PADDING` (the `Math.max` is applied after the `Math.min` and
wins), not the bound. -/
theorem c4_counterexample_degenerate_clamp :
    (narrowTarget.width / 2 + (narrowTarget.left - narrowPage.left)) - 100 / 2 >
      narrowPage.width - 100 - EDGE_PADDING
  ∧ (horizontalPositioning_ narrowTarget narrowPage 100 8).1 ≠
      (narrowPage.width - 100 - EDGE_PADDING) + narrowPage.left := by
  constructor
  · norm_num [narrowTarget, narrowPage, EDGE_PADDING]
  · norm_num [horizontalPositioning_, narrowTarget, narrowPage, EDGE_PADDING,
      min_def, max_def]

/-- C4 (amended): provided the clamp interval is nonempty (`EDGE_PADDING ≤
containerWidth - tooltipWidth - EDGE_PADDING`), a computed tooltip left above
the upper bound is clamped to exactly that bound; a computed tooltip left
below `EDGE_PADDING` is clamped to exactly `EDGE_PADDING` (this direction
needs no proviso, the lower clamp is applied last); a computed left inside
the interval is kept; in each case the container's left is added at the end.
When the interval is empty the lower clamp wins and the result is
`EDGE_PADDING` plus the container's left. -/
theorem c4_amended_horizontal_clamp (t p : Rect) (tw aw : ℚ) :
    (EDGE_PADDING ≤ p.width - tw - EDGE_PADDING →
      (t.width / 2 + (t.left - p.left)) - tw / 2 > p.width - tw - EDGE_PADDING →
      (horizontalPositioning_ t p tw aw).1 =
        (p.width - tw - EDGE_PADDING) + p.left)
  ∧ ((t.width / 2 + (t.left - p.left)) - tw / 2 < EDGE_PADDING →
      (horizontalPositioning_ t p tw aw).1 = EDGE_PADDING + p.left)
  ∧ (EDGE_PADDING ≤ (t.width / 2 + (t.left - p.left)) - tw / 2 →
      (t.width / 2 + (t.left - p.left)) - tw / 2 ≤ p.width - tw - EDGE_PADDING →
      (horizontalPositioning_ t p tw aw).1 =
        ((t.width / 2 + (t.left - p.left)) - tw / 2) + p.left) := by
  refine ⟨?_, ?_, ?_⟩
  · intro hb hx
    simp only [horizontalPositioning_]
    rw [min_eq_right (le_of_lt hx), max_eq_right hb]
  · intro hx
    simp only [horizontalPositioning_]
    rw [max_eq_left (le_of_lt (lt_of_le_of_lt (min_le_left _ _) hx))]
  · intro h1 h2
    simp only [horizontalPositioning_]
    rw [min_eq_left h2, max_eq_right h1]

/-- C4 (amended) witness: one concrete instance per clamp case, with a
container left offset of `10`. -/
theorem c4_amended_horizontal_clamp_witness :
    (horizontalPositioning_ rightEdgeTarget offsetPage 100 8).1 =
      (offsetPage.width - 100 - EDGE_PADDING) + offsetPage.left
  ∧ (horizontalPositioning_ leftEdgeTarget offsetPage 100 8).1 =
      EDGE_PADDING + offsetPage.left
  ∧ (horizontalPositioning_ centerTarget offsetPage 100 8).1 =
      ((centerTarget.width / 2 + (centerTarget.left - offsetPage.left)) -
        100 / 2) + offsetPage.left :=
  ⟨(c4_amended_horizontal_clamp rightEdgeTarget offsetPage 100 8).1
     (by norm_num [offsetPage, EDGE_PADDING])
     (by norm_num [rightEdgeTarget, offsetPage, EDGE_PADDING]),
   (c4_amended_horizontal_clamp leftEdgeTarget offsetPage 100 8).2.1
     (by norm_num [leftEdgeTarget, offsetPage, EDGE_PADDING]),
   (c4_amended_horizontal_clamp centerTarget offsetPage 100 8).2.2
     (by norm_num [centerTarget, offsetPage, EDGE_PADDING])
     (by norm_num [centerTarget, offsetPage, EDGE_PADDING])⟩

/-- A target whose midpoint is within half an arrow width of the clamped
tooltip left inside `pageForVertical`. -/
def leftNarrowTarget : Rect := ⟨100, 0, 20, 20⟩

/-- C5 counterexample: the code takes the absolute value of the whole
expression `midpoint - clampedLeft - arrowWidth/2`, not
`|midpoint - clampedLeft| - arrowWidth/2`. With target midpoint `10`, clamped
tooltip left `8`, arrow width `8`, the code yields `|10 - 8 - 4| = 2` while
the claimed formula yields `max 0 (|10 - 8| - 4) = 0`. -/
theorem c5_counterexample_arrow_formula :
    (horizontalPositioning_ leftNarrowTarget pageForVertical 100 8).2 ≠
      max 0 (min
        (|leftNarrowTarget.width / 2 + (leftNarrowTarget.left - pageForVertical.left) -
            ((horizontalPositioning_ leftNarrowTarget pageForVertical 100 8).1 -
              pageForVertical.left)| - 8 / 2)
        (100 - 3 * EDGE_PADDING)) := by
  norm_num [horizontalPositioning_, leftNarrowTarget, pageForVertical,
    EDGE_PADDING, min_def, max_def, abs]

/-- C5 (amended): the arrow offset equals
`min |midpoint - clampedLeft - arrowWidth/2| (tooltipWidth - 3*EDGE_PADDING)`
(the absolute value covers the whole expression, including the half arrow
width); hence it never exceeds `tooltipWidth - 3*EDGE_PADDING`, and it is
nonnegative whenever `3*EDGE_PADDING ≤ tooltipWidth` (there is no explicit
lower clamp at `0`). -/
theorem c5_amended_arrow_offset (t p : Rect) (tw aw : ℚ) :
    (horizontalPositioning_ t p tw aw).2 =
      min (|t.width / 2 + (t.left - p.left) -
          ((horizontalPositioning_ t p tw aw).1 - p.left) - aw / 2|)
        (tw - 3 * EDGE_PADDING)
  ∧ (horizontalPositioning_ t p tw aw).2 ≤ tw - 3 * EDGE_PADDING
  ∧ (3 * EDGE_PADDING ≤ tw → 0 ≤ (horizontalPositioning_ t p tw aw).2) := by
  refine ⟨?_, ?_, ?_⟩
  · simp only [horizontalPositioning_]
    ring_nf
  · simp only [horizontalPositioning_]
    have := min_le_right
      (|t.width / 2 + (t.left - p.left) -
        max EDGE_PADDING (min (t.width / 2 + (t.left - p.left) - tw / 2)
          (p.width - tw - EDGE_PADDING)) - aw / 2|)
      (tw - EDGE_PADDING * 3)
    calc min (|t.width / 2 + (t.left - p.left) -
          max EDGE_PADDING (min (t.width / 2 + (t.left - p.left) - tw / 2)
            (p.width - tw - EDGE_PADDING)) - aw / 2|)
          (tw - EDGE_PADDING * 3) ≤ tw - EDGE_PADDING * 3 := this
      _ = tw - 3 * EDGE_PADDING := by ring
  · intro h
    simp only [horizontalPositioning_]
    refine le_min (abs_nonneg _) ?_
    have : (3 : ℚ) * EDGE_PADDING = EDGE_PADDING * 3 := by ring
    linarith [h, this]

/-- C5 (amended) witness: concrete instance with tooltip width `100`. -/
theorem c5_amended_arrow_offset_witness :
    (horizontalPositioning_ leftNarrowTarget pageForVertical 100 8).2 =
      min (|leftNarrowTarget.width / 2 +
          (leftNarrowTarget.left - pageForVertical.left) -
          ((horizontalPositioning_ leftNarrowTarget pageForVertical 100 8).1 -
            pageForVertical.left) - 8 / 2|)
        (100 - 3 * EDGE_PADDING)
  ∧ (0 : ℚ) ≤ (horizontalPositioning_ leftNarrowTarget pageForVertical 100 8).2 :=
  ⟨(c5_amended_arrow_offset leftNarrowTarget pageForVertical 100 8).1,
   (c5_amended_arrow_offset leftNarrowTarget pageForVertical 100 8).2.2
     (by norm_num [EDGE_PADDING])⟩

/-- C6: the expand-centering transform satisfies
`translateY = (containerHeight/2 - targetHeight/2) - (targetTop - containerTop)`
and
`translateX = (targetLeft - containerLeft) - (containerWidth/2 - targetWidth/2)`;
the spec example (target `{100,50,100,100}` in container `{0,0,400,400}`)
gives `translateY = 50` and `translateX = -100`. -/
theorem c6_expand_centering_transform (t p : Rect) :
    (animateExpandedTranslate t p).2 =
      (p.height / 2 - t.height / 2) - (t.top - p.top)
  ∧ (animateExpandedTranslate t p).1 =
      (t.left - p.left) - (p.width / 2 - t.width / 2)
  ∧ animateExpandedTranslate ⟨100, 50, 100, 100⟩ ⟨0, 0, 400, 400⟩ =
      (-100, 50) :=
  ⟨rfl, rfl, by norm_num [animateExpandedTranslate]⟩

/-- `updateTooltipBehavior_` never changes `previousTarget_` or `state_`. -/
theorem updateTooltipBehavior_preserves (c : Component) (t : Target) :
    (updateTooltipBehavior_ c t).1.previousTarget_ = c.previousTarget_
  ∧ (updateTooltipBehavior_ c t).1.state_ = c.state_ := by
  by_cases hl : t.isLink
  · rcases hr : getElementHref_ t with ⟨href, effs⟩
    cases href <;>
      simp [updateTooltipBehavior_, hl, hr, addTooltipHrefAttribute]
  · by_cases he : t.isExpandable <;>
      simp [updateTooltipBehavior_, hl, he]

/-- `updateTooltipBehavior_` never runs the content-update path. -/
theorem updateTooltipBehavior_no_rebind (c : Component) (t : Target) :
    countContentRebinds (updateTooltipBehavior_ c t).2 = 0 := by
  by_cases hl : t.isLink
  · by_cases hv : isProtocolValid t.href <;>
      simp [updateTooltipBehavior_, hl, getElementHref_, hv,
        countContentRebinds]
  · by_cases he : t.isExpandable <;>
      simp [updateTooltipBehavior_, hl, he, countContentRebinds]


/-- `onFocusedStateUpdate_` with a target records it as `previousTarget_` and
keeps `state_`. -/
theorem onFocusedStateUpdate_some_fields (c : Component) (t : Target) :
    (onFocusedStateUpdate_ c (some t)).1.previousTarget_ = some t
  ∧ (onFocusedStateUpdate_ c (some t)).1.state_ = c.state_ := by
  have hpres := updateTooltipBehavior_preserves { c with overlayBuilt := true } t
  constructor
  · simp [onFocusedStateUpdate_]
  · simp only [onFocusedStateUpdate_]
    exact hpres.2

/-- `onFocusedStateUpdate_` with a target runs the content-update path once
when the target differs from `previousTarget_` and not at all otherwise. -/
theorem onFocusedStateUpdate_some_rebinds (c : Component) (t : Target) :
    countContentRebinds (onFocusedStateUpdate_ c (some t)).2 =
      (if c.previousTarget_ = some t then 0 else 1) := by
  have hpres := updateTooltipBehavior_preserves { c with overlayBuilt := true } t
  have hno := updateTooltipBehavior_no_rebind { c with overlayBuilt := true } t
  simp only [onFocusedStateUpdate_, countContentRebinds, List.countP_append]
  rw [hpres.1]
  by_cases hp : c.previousTarget_ = some t
  · rw [if_pos hp, if_pos hp]
    simpa [countContentRebinds] using hno
  · rw [if_neg hp, if_neg hp]
    rw [countContentRebinds] at hno
    rw [hno]
    simp [List.countP_cons]

/-- From `FOCUSED`, a target-present update goes through
`setState_(FOCUSED, target)` into `onFocusedStateUpdate_`. -/
theorem onEmbeddedComponentUpdate_focused_some (c : Component) (t : Target)
    (h : c.state_ = ComponentState.FOCUSED) :
    onEmbeddedComponentUpdate_ c (some t) =
      onFocusedStateUpdate_ { c with state_ := ComponentState.FOCUSED } (some t) := by
  simp [onEmbeddedComponentUpdate_, setState_, h, ComponentState.FOCUSED,
    ComponentState.HIDDEN, ComponentState.EXPANDED]

/-- C9: delivering a target-changed update for the same target `t` twice in a
row while `FOCUSED` runs the content-update path (`updateTooltipEl_`: text,
icon, position) zero times on the second delivery, and at most once over the
two deliveries; the rebind is skipped because the incoming target equals the
previously bound `previousTarget_`. -/
theorem c9_rebind_at_most_once (c : Component) (t : Target)
    (hstate : c.state_ = ComponentState.FOCUSED) :
    countContentRebinds
      (onEmbeddedComponentUpdate_
        (onEmbeddedComponentUpdate_ c (some t)).1 (some t)).2 = 0
  ∧ countContentRebinds
      ((onEmbeddedComponentUpdate_ c (some t)).2 ++
       (onEmbeddedComponentUpdate_
         (onEmbeddedComponentUpdate_ c (some t)).1 (some t)).2) ≤ 1 := by
  have h1 := onEmbeddedComponentUpdate_focused_some c t hstate
  have hfields1 := onFocusedStateUpdate_some_fields
    { c with state_ := ComponentState.FOCUSED } t
  have hstate1 : (onEmbeddedComponentUpdate_ c (some t)).1.state_ =
      ComponentState.FOCUSED := by
    rw [h1]
    exact hfields1.2
  have hprev1 : (onEmbeddedComponentUpdate_ c (some t)).1.previousTarget_ =
      some t := by
    rw [h1]
    exact hfields1.1
  have h2 := onEmbeddedComponentUpdate_focused_some
    (onEmbeddedComponentUpdate_ c (some t)).1 t hstate1
  have hz : countContentRebinds
      (onEmbeddedComponentUpdate_
        (onEmbeddedComponentUpdate_ c (some t)).1 (some t)).2 = 0 := by
    rw [h2, onFocusedStateUpdate_some_rebinds]
    simp [hprev1]
  refine ⟨hz, ?_⟩
  have hc1 : countContentRebinds (onEmbeddedComponentUpdate_ c (some t)).2 ≤ 1 := by
    rw [h1, onFocusedStateUpdate_some_rebinds]
    split <;> omega
  have happ : countContentRebinds
      ((onEmbeddedComponentUpdate_ c (some t)).2 ++
       (onEmbeddedComponentUpdate_
         (onEmbeddedComponentUpdate_ c (some t)).1 (some t)).2) =
      countContentRebinds (onEmbeddedComponentUpdate_ c (some t)).2 +
      countContentRebinds
        (onEmbeddedComponentUpdate_
          (onEmbeddedComponentUpdate_ c (some t)).1 (some t)).2 := by
    simp [countContentRebinds, List.countP_append]
  rw [happ, hz]
  omega

/-- C9 witness: a focused component receiving `twitterTarget` twice. -/
theorem c9_rebind_at_most_once_witness :
    countContentRebinds
      (onEmbeddedComponentUpdate_
        (onEmbeddedComponentUpdate_ focusedLinkComponent (some twitterTarget)).1
        (some twitterTarget)).2 = 0
  ∧ countContentRebinds
      ((onEmbeddedComponentUpdate_ focusedLinkComponent (some twitterTarget)).2 ++
       (onEmbeddedComponentUpdate_
         (onEmbeddedComponentUpdate_ focusedLinkComponent (some twitterTarget)).1
         (some twitterTarget)).2) ≤ 1 :=
  c9_rebind_at_most_once focusedLinkComponent twitterTarget rfl

/-- C7: for every `LINK`-classified target whose href fails protocol
validation, a target-present update from `HIDDEN` or `FOCUSED` reports the
user-facing invalid-url error, leaves the tooltip without an href attribute
(starting from a clear tooltip), and still reaches the `FOCUSED` state. -/
theorem c7_invalid_link_href (c : Component) (t : Target)
    (hstate : c.state_ = ComponentState.HIDDEN ∨ c.state_ = ComponentState.FOCUSED)
    (hclear : c.tooltipHref = none)
    (hlink : t.isLink = true)
    (hbad : isProtocolValid t.href = false) :
    Effect.userErrorTooltipUrlInvalid ∈ (onEmbeddedComponentUpdate_ c (some t)).2
  ∧ (onEmbeddedComponentUpdate_ c (some t)).1.tooltipHref = none
  ∧ (onEmbeddedComponentUpdate_ c (some t)).1.state_ = ComponentState.FOCUSED := by
  have hup : onEmbeddedComponentUpdate_ c (some t) =
      onFocusedStateUpdate_ { c with state_ := ComponentState.FOCUSED } (some t) := by
    rcases hstate with h | h <;>
      simp [onEmbeddedComponentUpdate_, setState_, h, ComponentState.FOCUSED,
        ComponentState.HIDDEN, ComponentState.EXPANDED]
  rw [hup]
  have hb : ∀ c0 : Component, updateTooltipBehavior_ c0 t =
      (c0, [Effect.userErrorTooltipUrlInvalid]) := by
    intro c0
    simp [updateTooltipBehavior_, hlink, getElementHref_, hbad,
      addTooltipHrefAttribute]
  refine ⟨?_, ?_, ?_⟩
  · simp [onFocusedStateUpdate_, hb]
  · simp [onFocusedStateUpdate_, hb, hclear]
  · simp [onFocusedStateUpdate_, hb]

/-- C7 witness: `hiddenComponent` receiving `badLinkTarget`
(href `javascript:alert(1)`). -/
theorem c7_invalid_link_href_witness :
    Effect.userErrorTooltipUrlInvalid ∈
      (onEmbeddedComponentUpdate_ hiddenComponent (some badLinkTarget)).2
  ∧ (onEmbeddedComponentUpdate_ hiddenComponent (some badLinkTarget)).1.tooltipHref =
      none
  ∧ (onEmbeddedComponentUpdate_ hiddenComponent (some badLinkTarget)).1.state_ =
      ComponentState.FOCUSED :=
  c7_invalid_link_href hiddenComponent badLinkTarget (Or.inl rfl) rfl rfl rfl

/-- C8 counterexample: with the out-of-contract state value `3` (resp. a
requested state `5`), `onEmbeddedComponentUpdate_` (resp. `setState_`) merely
logs a `dev().warn` naming the current state and returns with the component
unchanged — it neither throws nor otherwise aborts, contradicting the claim
that the error branch fails loudly rather than merely logging and
returning. -/
theorem c8_counterexample_warn_and_continue :
    onEmbeddedComponentUpdate_ badStateComponent none =
      (badStateComponent, [Effect.devWarn 3])
  ∧ setState_ hiddenComponent 5 none = (hiddenComponent, [Effect.devWarn 0]) :=
  ⟨rfl, rfl⟩

/-- C8 (amended): with an unrecognized current state, `onEmbeddedComponentUpdate_`
logs a development-only warning carrying the current state value and performs
no transition and no other side effect (component returned unchanged); with
an unrecognized requested state, `setState_` does the same. No exception is
thrown and the operation is not aborted beyond skipping the transition. -/
theorem c8_amended_unknown_state_warns (c : Component) (target : Option Target)
    (s : Nat)
    (hc : c.state_ ≠ ComponentState.HIDDEN ∧ c.state_ ≠ ComponentState.FOCUSED ∧
      c.state_ ≠ ComponentState.EXPANDED)
    (hs : s ≠ ComponentState.HIDDEN ∧ s ≠ ComponentState.FOCUSED ∧
      s ≠ ComponentState.EXPANDED) :
    onEmbeddedComponentUpdate_ c target = (c, [Effect.devWarn c.state_])
  ∧ setState_ c s target = (c, [Effect.devWarn c.state_]) := by
  obtain ⟨h0, h1, h2⟩ := hc
  obtain ⟨g0, g1, g2⟩ := hs
  constructor
  · simp [onEmbeddedComponentUpdate_, h0, h1, h2]
  · simp [setState_, g0, g1, g2]

/-- C8 (amended) witness: state value `3` and requested state `5`. -/
theorem c8_amended_unknown_state_warns_witness :
    onEmbeddedComponentUpdate_ badStateComponent none =
      (badStateComponent, [Effect.devWarn badStateComponent.state_])
  ∧ setState_ badStateComponent 5 none =
      (badStateComponent, [Effect.devWarn badStateComponent.state_]) :=
  c8_amended_unknown_state_warns badStateComponent none 5
    ⟨by decide, by decide, by decide⟩ ⟨by decide, by decide, by decide⟩

/-- C10: hiding via a null target update while `FOCUSED` leaves the tooltip's
href attribute and attached expand-click listener unchanged and only adds the
overlay's hidden class (state becomes `HIDDEN`); the href and listener are
removed when hiding goes through `closeFocusedState_` (which calls
`clearTooltip_`), and on expanded-view close the listener is detached. -/
theorem c10_null_hide_preserves_tooltip (c : Component)
    (hstate : c.state_ = ComponentState.FOCUSED) :
    ((onEmbeddedComponentUpdate_ c none).1.state_ = ComponentState.HIDDEN
     ∧ (onEmbeddedComponentUpdate_ c none).1.tooltipHref = c.tooltipHref
     ∧ (onEmbeddedComponentUpdate_ c none).1.tooltipHasExpandListener =
         c.tooltipHasExpandListener
     ∧ (onEmbeddedComponentUpdate_ c none).1.overlayHidden = true)
  ∧ ((closeFocusedState_ c).1.tooltipHref = none
     ∧ (closeFocusedState_ c).1.tooltipHasExpandListener = false)
  ∧ (∀ cE : Component, ∀ t : Target, cE.state_ = ComponentState.EXPANDED →
      t.isCloseButton = true →
      (onEmbeddedComponentUpdate_ cE (some t)).1.tooltipHasExpandListener =
        false) := by
  refine ⟨?_, ?_, ?_⟩
  · simp [onEmbeddedComponentUpdate_, setState_, onFocusedStateUpdate_, hstate,
      ComponentState.FOCUSED, ComponentState.HIDDEN, ComponentState.EXPANDED]
  · simp [closeFocusedState_, setState_, onFocusedStateUpdate_, clearTooltip_,
      ComponentState.FOCUSED, ComponentState.HIDDEN, ComponentState.EXPANDED]
  · intro cE t hE hbtn
    simp only [onEmbeddedComponentUpdate_, maybeCloseExpandedView_, hE, hbtn,
      ComponentState.FOCUSED, ComponentState.HIDDEN, ComponentState.EXPANDED]
    norm_num

/-- C10 witness: a focused component with a bound href and listener, plus the
expanded-view close. -/
theorem c10_null_hide_preserves_tooltip_witness :
    (onEmbeddedComponentUpdate_ focusedLinkComponent none).1.tooltipHref =
      focusedLinkComponent.tooltipHref
  ∧ (onEmbeddedComponentUpdate_ focusedLinkComponent none).1.tooltipHasExpandListener =
      focusedLinkComponent.tooltipHasExpandListener
  ∧ (closeFocusedState_ focusedLinkComponent).1.tooltipHref = none
  ∧ (onEmbeddedComponentUpdate_ expandedComponent
      (some closeButtonTarget)).1.tooltipHasExpandListener = false :=
  ⟨((c10_null_hide_preserves_tooltip focusedLinkComponent rfl).1).2.1,
   ((c10_null_hide_preserves_tooltip focusedLinkComponent rfl).1).2.2.1,
   ((c10_null_hide_preserves_tooltip focusedLinkComponent rfl).2).1.1,
   ((c10_null_hide_preserves_tooltip focusedLinkComponent rfl).2).2
     expandedComponent closeButtonTarget rfl rfl⟩
